import Mathlib

/-!
Shallow embedding of the UK payroll engine of `uk-payroll-app`.

Numbers are modelled as rationals (`ℚ`); the arithmetic of the source is
plain `+ - * /` with `Math.max` / `Math.min` clamps, reproduced here with
`max` / `min`.  The six supported tax years form a closed enumeration
`TaxYearKey`; the parameter table `YEARS` is a total function on it, as in
the source (`Record<TaxYearKey, YearParams>`).

Embedded sources:
* `src/App.tsx` — multi-year engine: `TaxYearKey`, `YearParams`, `YEARS`,
  `clamp`, `calcPersonalAllowance`, `calcIncomeTax`, `calcEmployeeNI`,
  `payrollFromAnnualSalary`, `PayrollResult`.
* `src/src/ukTax2425.ts` — single-year (2024/25) engine, in namespace
  `UkTax2425`.
-/

/-- The closed set of six supported tax-year keys (`src/App.tsx` type
`TaxYearKey`). -/
inductive TaxYearKey where
  | y2019_20
  | y2020_21
  | y2021_22
  | y2022_23
  | y2023_24
  | y2024_25
deriving DecidableEq, Fintype

/-- Per-year parameter record (`src/App.tsx` type `YearParams`).  The TS
field `notes?: string[]` is optional, hence `Option (List String)` here. -/
structure YearParams where
  year : TaxYearKey
  personalAllowance : ℚ
  taperStart : ℚ
  taperEnd : ℚ
  basicBandTaxable : ℚ
  higherThresholdTaxable : ℚ
  niPrimaryThreshold : ℚ
  niUpperEarningsLimit : ℚ
  niMainRate : ℚ
  niAdditionalRate : ℚ
  notes : Option (List String)

/-- The parameter table (`src/App.tsx` constant `YEARS`). -/
def YEARS : TaxYearKey → YearParams
  | .y2019_20 =>
    { year := .y2019_20
      personalAllowance := 12500
      taperStart := 100000
      taperEnd := 125000
      basicBandTaxable := 37500
      higherThresholdTaxable := 150000
      niPrimaryThreshold := 8632
      niUpperEarningsLimit := 50000
      niMainRate := 0.12
      niAdditionalRate := 0.02
      notes := none }
  | .y2020_21 =>
    { year := .y2020_21
      personalAllowance := 12500
      taperStart := 100000
      taperEnd := 125000
      basicBandTaxable := 37500
      higherThresholdTaxable := 150000
      niPrimaryThreshold := 9500
      niUpperEarningsLimit := 50000
      niMainRate := 0.12
      niAdditionalRate := 0.02
      notes := none }
  | .y2021_22 =>
    { year := .y2021_22
      personalAllowance := 12570
      taperStart := 100000
      taperEnd := 125140
      basicBandTaxable := 37700
      higherThresholdTaxable := 150000
      niPrimaryThreshold := 9568
      niUpperEarningsLimit := 50270
      niMainRate := 0.12
      niAdditionalRate := 0.02
      notes := none }
  | .y2022_23 =>
    { year := .y2022_23
      personalAllowance := 12570
      taperStart := 100000
      taperEnd := 125140
      basicBandTaxable := 37700
      higherThresholdTaxable := 150000
      niPrimaryThreshold := 12570
      niUpperEarningsLimit := 50270
      niMainRate := 0.1325
      niAdditionalRate := 0.0325
      notes := some ["NI rates/thresholds changed mid-year in 2022/23; this is a simplified estimate."] }
  | .y2023_24 =>
    { year := .y2023_24
      personalAllowance := 12570
      taperStart := 100000
      taperEnd := 125140
      basicBandTaxable := 37700
      higherThresholdTaxable := 125140
      niPrimaryThreshold := 12570
      niUpperEarningsLimit := 50270
      niMainRate := 0.10
      niAdditionalRate := 0.02
      notes := some ["NI main rate changed during 2023/24; this is a simplified estimate."] }
  | .y2024_25 =>
    { year := .y2024_25
      personalAllowance := 12570
      taperStart := 100000
      taperEnd := 125140
      basicBandTaxable := 37700
      higherThresholdTaxable := 125140
      niPrimaryThreshold := 12570
      niUpperEarningsLimit := 50270
      niMainRate := 0.08
      niAdditionalRate := 0.02
      notes := none }

/-- `clamp(n, lo, hi) = Math.max(lo, Math.min(hi, n))` (`src/App.tsx`). -/
def clamp (n lo hi : ℚ) : ℚ := max lo (min hi n)

/-- `calcPersonalAllowance` (`src/App.tsx`, lines 441-447). -/
def calcPersonalAllowance (params : YearParams) (grossAnnual : ℚ) : ℚ :=
  let g := max 0 grossAnnual
  if g ≤ params.taperStart then params.personalAllowance
  else if params.taperEnd ≤ g then 0
  else
    let reduction := (g - params.taperStart) / 2
    clamp (params.personalAllowance - reduction) 0 params.personalAllowance

/-- `calcIncomeTax` (`src/App.tsx`, lines 449-459). -/
def calcIncomeTax (params : YearParams) (taxableAnnual : ℚ) : ℚ :=
  let t := max 0 taxableAnnual
  let basic := min t params.basicBandTaxable * 0.2
  let higherBase := max 0 (t - params.basicBandTaxable)
  let higherBandWidth := max 0 (params.higherThresholdTaxable - params.basicBandTaxable)
  let higher := min higherBase higherBandWidth * 0.4
  let additional := max 0 (t - params.higherThresholdTaxable) * 0.45
  basic + higher + additional

/-- `calcEmployeeNI` (`src/App.tsx`, lines 461-466). -/
def calcEmployeeNI (params : YearParams) (grossAnnual : ℚ) : ℚ :=
  let g := max 0 grossAnnual
  let mainBase := max 0 (min g params.niUpperEarningsLimit - params.niPrimaryThreshold)
  let addBase := max 0 (g - params.niUpperEarningsLimit)
  mainBase * params.niMainRate + addBase * params.niAdditionalRate

/-- Result record (`src/App.tsx` type `PayrollResult`). -/
structure PayrollResult where
  year : TaxYearKey
  grossAnnual : ℚ
  personalAllowance : ℚ
  taxableAnnual : ℚ
  incomeTaxAnnual : ℚ
  niAnnual : ℚ
  netAnnual : ℚ
  netMonthly : ℚ
  takeHomePct : ℚ
  notes : List String

/-- `payrollFromAnnualSalary` (`src/App.tsx`, lines 468-493).  The TS
`params.notes ?? []` is `Option.getD` here. -/
def payrollFromAnnualSalary (year : TaxYearKey) (grossAnnual : ℚ) : PayrollResult :=
  let params := YEARS year
  let gross := max 0 grossAnnual
  let pa := calcPersonalAllowance params gross
  let taxable := max 0 (gross - pa)
  let incomeTax := calcIncomeTax params taxable
  let ni := calcEmployeeNI params gross
  let net := max 0 (gross - incomeTax - ni)
  let netMonthly := net / 12
  { year := year
    grossAnnual := gross
    personalAllowance := pa
    taxableAnnual := taxable
    incomeTaxAnnual := incomeTax
    niAnnual := ni
    netAnnual := net
    netMonthly := netMonthly
    takeHomePct := if 0 < gross then net / gross * 100 else 0
    notes := params.notes.getD [] }

namespace UkTax2425

/-- Result record of the single-year module (`src/src/ukTax2425.ts` type
`PayrollResult`): no `year` and no `notes` field. -/
structure PayrollResult where
  grossAnnual : ℚ
  personalAllowance : ℚ
  taxableAnnual : ℚ
  incomeTaxAnnual : ℚ
  niAnnual : ℚ
  netAnnual : ℚ
  netMonthly : ℚ
  takeHomePct : ℚ

def PA_FULL : ℚ := 12570
def PA_TAPER_START : ℚ := 100000
def PA_ZERO_AT : ℚ := 125140
def BASIC_BAND : ℚ := 37700
def NI_PT : ℚ := 12570
def NI_UEL : ℚ := 50270
def NI_MAIN : ℚ := 0.08
def NI_ADDITIONAL : ℚ := 0.02

/-- `clamp` of `src/src/ukTax2425.ts`. -/
def clamp (n lo hi : ℚ) : ℚ := max lo (min hi n)

/-- `personalAllowance2425` (`src/src/ukTax2425.ts`, lines 37-42).  Note:
unlike `calcPersonalAllowance` it does not clamp its input to 0. -/
def personalAllowance2425 (grossAnnual : ℚ) : ℚ :=
  if grossAnnual ≤ PA_TAPER_START then PA_FULL
  else if PA_ZERO_AT ≤ grossAnnual then 0
  else
    let reduction := (grossAnnual - PA_TAPER_START) / 2
    clamp (PA_FULL - reduction) 0 PA_FULL

/-- `calcIncomeTax2425` (`src/src/ukTax2425.ts`, lines 44-57). -/
def calcIncomeTax2425 (taxableAnnual : ℚ) : ℚ :=
  let t := max 0 taxableAnnual
  let basic := min t BASIC_BAND * 0.2
  let higherBase := max 0 (t - BASIC_BAND)
  let higherBandLimit := PA_ZERO_AT
  let higher := min higherBase (max 0 (higherBandLimit - BASIC_BAND)) * 0.4
  let additionalBase := max 0 (t - higherBandLimit)
  let additional := additionalBase * 0.45
  basic + higher + additional

/-- `calcEmployeeNI2425` (`src/src/ukTax2425.ts`, lines 59-66). -/
def calcEmployeeNI2425 (grossAnnual : ℚ) : ℚ :=
  let g := max 0 grossAnnual
  let mainBase := max 0 (min g NI_UEL - NI_PT)
  let addBase := max 0 (g - NI_UEL)
  mainBase * NI_MAIN + addBase * NI_ADDITIONAL

/-- `payrollFromAnnualSalary2425` (`src/src/ukTax2425.ts`, lines 68-91). -/
def payrollFromAnnualSalary2425 (grossAnnual : ℚ) : PayrollResult :=
  let gross := max 0 grossAnnual
  let pa := personalAllowance2425 gross
  let taxable := max 0 (gross - pa)
  let incomeTax := calcIncomeTax2425 taxable
  let ni := calcEmployeeNI2425 gross
  let net := max 0 (gross - incomeTax - ni)
  let netMonthly := net / 12
  { grossAnnual := gross
    personalAllowance := pa
    taxableAnnual := taxable
    incomeTaxAnnual := incomeTax
    niAnnual := ni
    netAnnual := net
    netMonthly := netMonthly
    takeHomePct := if 0 < gross then net / gross * 100 else 0 }

end UkTax2425

/-- Piecewise description of `calcPersonalAllowance` for any parameter record with a
non-negative full allowance and `taperStart < taperEnd`, together with the range
bounds `0 ≤ allowance ≤ personalAllowanceFull`. -/
theorem calcPersonalAllowance_spec (p : YearParams) (gross : ℚ)
    (hPA : 0 ≤ p.personalAllowance) (hts : p.taperStart < p.taperEnd) :
    (max 0 gross ≤ p.taperStart → calcPersonalAllowance p gross = p.personalAllowance) ∧
    (p.taperEnd ≤ max 0 gross → calcPersonalAllowance p gross = 0) ∧
    (p.taperStart < max 0 gross → max 0 gross < p.taperEnd →
      calcPersonalAllowance p gross =
        clamp (p.personalAllowance - (max 0 gross - p.taperStart) / 2) 0 p.personalAllowance) ∧
    0 ≤ calcPersonalAllowance p gross ∧
    calcPersonalAllowance p gross ≤ p.personalAllowance := by
  simp only [calcPersonalAllowance, clamp]
  split_ifs with h1 h2
  · exact ⟨fun _ => rfl, fun h => by linarith, fun h _ => absurd h (not_lt.mpr h1),
      hPA, le_rfl⟩
  · exact ⟨fun h => absurd h h1, fun _ => rfl, fun _ hlt => absurd h2 (not_le.mpr hlt),
      le_rfl, hPA⟩
  · exact ⟨fun h => absurd h h1, fun h => absurd h h2, fun _ _ => rfl,
      le_max_left _ _, max_le hPA (min_le_left _ _)⟩

/-- Claim C1: for every supported year and every gross income, with `g` the 0-clamped
gross, `calcPersonalAllowance` returns the full allowance when `g ≤ taperStart`,
returns 0 when `g ≥ taperEnd`, and otherwise returns
`clamp(personalAllowanceFull - (g - taperStart)/2, 0, personalAllowanceFull)`;
consequently the result always lies between 0 and the full allowance. -/
theorem claim_C1 (y : TaxYearKey) (gross : ℚ) :
    (max 0 gross ≤ (YEARS y).taperStart →
      calcPersonalAllowance (YEARS y) gross = (YEARS y).personalAllowance) ∧
    ((YEARS y).taperEnd ≤ max 0 gross → calcPersonalAllowance (YEARS y) gross = 0) ∧
    ((YEARS y).taperStart < max 0 gross → max 0 gross < (YEARS y).taperEnd →
      calcPersonalAllowance (YEARS y) gross =
        clamp ((YEARS y).personalAllowance - (max 0 gross - (YEARS y).taperStart) / 2) 0
          (YEARS y).personalAllowance) ∧
    0 ≤ calcPersonalAllowance (YEARS y) gross ∧
    calcPersonalAllowance (YEARS y) gross ≤ (YEARS y).personalAllowance := by
  refine calcPersonalAllowance_spec (YEARS y) gross ?_ ?_ <;> cases y <;> norm_num [YEARS]

/-- Witness for C1 at year 2024/25 and gross 110000: the taper branch applies and
evaluates to 7570. -/
theorem claim_C1_witness :
    calcPersonalAllowance (YEARS TaxYearKey.y2024_25) 110000 = 7570 := by
  have h := (claim_C1 TaxYearKey.y2024_25 110000).2.2.1 (by norm_num [YEARS])
    (by norm_num [YEARS])
  rw [h]
  norm_num [YEARS, clamp, max_def, min_def]

/-- Claim C2: for every supported year and every taxable income, `calcIncomeTax`
returns exactly the sum of the three marginal bands: 20 percent of
`min(t, basicBandTaxable)`, 40 percent of the band slice
`min(max(0, t - basicBandTaxable), max(0, higherThresholdTaxable - basicBandTaxable))`,
and 45 percent of `max(0, t - higherThresholdTaxable)`, where `t` is the 0-clamped
taxable income. -/
theorem claim_C2 (y : TaxYearKey) (taxable : ℚ) :
    calcIncomeTax (YEARS y) taxable =
      min (max 0 taxable) (YEARS y).basicBandTaxable * 0.20 +
      min (max 0 (max 0 taxable - (YEARS y).basicBandTaxable))
        (max 0 ((YEARS y).higherThresholdTaxable - (YEARS y).basicBandTaxable)) * 0.40 +
      max 0 (max 0 taxable - (YEARS y).higherThresholdTaxable) * 0.45 := by
  norm_num [calcIncomeTax]

/-- Claim C3: for every supported year and every gross income, `calcEmployeeNI`
returns exactly
`max(0, min(g, niUpperEarningsLimit) - niPrimaryThreshold) * niMainRate +
 max(0, g - niUpperEarningsLimit) * niAdditionalRate` with `g` the 0-clamped gross. -/
theorem claim_C3 (y : TaxYearKey) (gross : ℚ) :
    calcEmployeeNI (YEARS y) gross =
      max 0 (min (max 0 gross) (YEARS y).niUpperEarningsLimit -
          (YEARS y).niPrimaryThreshold) * (YEARS y).niMainRate +
      max 0 (max 0 gross - (YEARS y).niUpperEarningsLimit) * (YEARS y).niAdditionalRate := rfl

/-- Claim C4: for every supported year and every gross ≥ 0, the result of
`payrollFromAnnualSalary` satisfies `taxableAnnual = max(0, gross - personalAllowance)`,
`netAnnual = max(0, gross - incomeTaxAnnual - niAnnual)`, `netMonthly = netAnnual / 12`,
`takeHomePct = netAnnual / gross * 100` when `gross > 0`, and `takeHomePct = 0` when
`gross = 0`. -/
theorem claim_C4 (y : TaxYearKey) (gross : ℚ) (hg : 0 ≤ gross) :
    (payrollFromAnnualSalary y gross).grossAnnual = gross ∧
    (payrollFromAnnualSalary y gross).taxableAnnual =
      max 0 (gross - (payrollFromAnnualSalary y gross).personalAllowance) ∧
    (payrollFromAnnualSalary y gross).netAnnual =
      max 0 (gross - (payrollFromAnnualSalary y gross).incomeTaxAnnual -
        (payrollFromAnnualSalary y gross).niAnnual) ∧
    (payrollFromAnnualSalary y gross).netMonthly =
      (payrollFromAnnualSalary y gross).netAnnual / 12 ∧
    (0 < gross → (payrollFromAnnualSalary y gross).takeHomePct =
      (payrollFromAnnualSalary y gross).netAnnual / gross * 100) ∧
    (gross = 0 → (payrollFromAnnualSalary y gross).takeHomePct = 0) := by
  have hmax : max 0 gross = gross := max_eq_right hg
  refine ⟨?_, ?_, ?_, ?_, fun h => ?_, fun h => ?_⟩ <;>
    simp only [payrollFromAnnualSalary, hmax]
  · rw [if_pos h]
  · rw [if_neg]
    rw [h]
    exact lt_irrefl 0

/-- Witness for C4 at year 2024/25 and gross 50000. -/
theorem claim_C4_witness :
    (payrollFromAnnualSalary TaxYearKey.y2024_25 50000).grossAnnual = 50000 :=
  (claim_C4 TaxYearKey.y2024_25 50000 (by norm_num)).1

/-- Claim C5: concrete 2024/25 scenarios. Gross 110000 yields allowance 7570,
taxable 102430, income tax 33432.00, NI 4210.60, net 72357.40; gross 50000 yields
allowance 12570, taxable 37430, income tax 7486.00, NI 2994.40, net 39519.60,
net monthly 3293.30. -/
theorem claim_C5 :
    ((payrollFromAnnualSalary TaxYearKey.y2024_25 110000).personalAllowance = 7570 ∧
     (payrollFromAnnualSalary TaxYearKey.y2024_25 110000).taxableAnnual = 102430 ∧
     (payrollFromAnnualSalary TaxYearKey.y2024_25 110000).incomeTaxAnnual = 33432.00 ∧
     (payrollFromAnnualSalary TaxYearKey.y2024_25 110000).niAnnual = 4210.60 ∧
     (payrollFromAnnualSalary TaxYearKey.y2024_25 110000).netAnnual = 72357.40) ∧
    ((payrollFromAnnualSalary TaxYearKey.y2024_25 50000).personalAllowance = 12570 ∧
     (payrollFromAnnualSalary TaxYearKey.y2024_25 50000).taxableAnnual = 37430 ∧
     (payrollFromAnnualSalary TaxYearKey.y2024_25 50000).incomeTaxAnnual = 7486.00 ∧
     (payrollFromAnnualSalary TaxYearKey.y2024_25 50000).niAnnual = 2994.40 ∧
     (payrollFromAnnualSalary TaxYearKey.y2024_25 50000).netAnnual = 39519.60 ∧
     (payrollFromAnnualSalary TaxYearKey.y2024_25 50000).netMonthly = 3293.30) := by
  norm_num [payrollFromAnnualSalary, calcPersonalAllowance, calcIncomeTax, calcEmployeeNI,
    clamp, YEARS, max_def, min_def]

/-- The 0-clamped gross minus the tapered allowance is monotone in gross: the
allowance falls by at most half of any rise in gross. -/
theorem grossMinusAllowance_mono (p : YearParams) (hPA : 0 ≤ p.personalAllowance)
    {g1 g2 : ℚ} (h : g1 ≤ g2) :
    max 0 g1 - calcPersonalAllowance p (max 0 g1) ≤
      max 0 g2 - calcPersonalAllowance p (max 0 g2) := by
  have h12 : max 0 g1 ≤ max 0 g2 := max_le_max le_rfl h
  have e1 : max 0 (max 0 g1) = max 0 g1 := max_eq_right (le_max_left 0 g1)
  have e2 : max 0 (max 0 g2) = max 0 g2 := max_eq_right (le_max_left 0 g2)
  simp only [calcPersonalAllowance, clamp, e1, e2]
  set G1 := max 0 g1 with hG1
  set G2 := max 0 g2 with hG2
  simp only [max_def, min_def]
  split_ifs <;> linarith

/-- `calcIncomeTax` is monotone non-decreasing in its taxable-income argument. -/
theorem calcIncomeTax_mono (p : YearParams) {t1 t2 : ℚ} (h : t1 ≤ t2) :
    calcIncomeTax p t1 ≤ calcIncomeTax p t2 := by
  have h12 : max 0 t1 ≤ max 0 t2 := max_le_max le_rfl h
  simp only [calcIncomeTax]
  refine add_le_add (add_le_add ?_ ?_) ?_
  · exact mul_le_mul_of_nonneg_right (min_le_min h12 le_rfl) (by norm_num)
  · exact mul_le_mul_of_nonneg_right
      (min_le_min (max_le_max le_rfl (sub_le_sub_right h12 _)) le_rfl) (by norm_num)
  · exact mul_le_mul_of_nonneg_right (max_le_max le_rfl (sub_le_sub_right h12 _))
      (by norm_num)

/-- `calcEmployeeNI` is monotone non-decreasing in gross when both NI rates are
non-negative. -/
theorem calcEmployeeNI_mono (p : YearParams) (hm : 0 ≤ p.niMainRate)
    (ha : 0 ≤ p.niAdditionalRate) {g1 g2 : ℚ} (h : g1 ≤ g2) :
    calcEmployeeNI p g1 ≤ calcEmployeeNI p g2 := by
  have h12 : max 0 g1 ≤ max 0 g2 := max_le_max le_rfl h
  simp only [calcEmployeeNI]
  refine add_le_add (mul_le_mul_of_nonneg_right ?_ hm) (mul_le_mul_of_nonneg_right ?_ ha)
  · exact max_le_max le_rfl (sub_le_sub_right (min_le_min h12 le_rfl) _)
  · exact max_le_max le_rfl (sub_le_sub_right h12 _)

/-- Claim C6: for every supported year held fixed and all gross incomes
`0 ≤ g1 ≤ g2`, the `incomeTaxAnnual` and `niAnnual` fields of
`payrollFromAnnualSalary` are each monotone non-decreasing. -/
theorem claim_C6 (y : TaxYearKey) (g1 g2 : ℚ) (_h0 : 0 ≤ g1) (h : g1 ≤ g2) :
    (payrollFromAnnualSalary y g1).incomeTaxAnnual ≤
      (payrollFromAnnualSalary y g2).incomeTaxAnnual ∧
    (payrollFromAnnualSalary y g1).niAnnual ≤ (payrollFromAnnualSalary y g2).niAnnual := by
  have hPA : 0 ≤ (YEARS y).personalAllowance := by cases y <;> norm_num [YEARS]
  have hm : 0 ≤ (YEARS y).niMainRate := by cases y <;> norm_num [YEARS]
  have ha : 0 ≤ (YEARS y).niAdditionalRate := by cases y <;> norm_num [YEARS]
  simp only [payrollFromAnnualSalary]
  constructor
  · exact calcIncomeTax_mono (YEARS y)
      (max_le_max le_rfl (grossMinusAllowance_mono (YEARS y) hPA h))
  · exact calcEmployeeNI_mono (YEARS y) hm ha (max_le_max le_rfl h)

/-- Witness for C6 at year 2024/25 with gross 0 and 50000. -/
theorem claim_C6_witness :
    (payrollFromAnnualSalary TaxYearKey.y2024_25 0).incomeTaxAnnual ≤
      (payrollFromAnnualSalary TaxYearKey.y2024_25 50000).incomeTaxAnnual ∧
    (payrollFromAnnualSalary TaxYearKey.y2024_25 0).niAnnual ≤
      (payrollFromAnnualSalary TaxYearKey.y2024_25 50000).niAnnual :=
  claim_C6 TaxYearKey.y2024_25 0 50000 (by norm_num) (by norm_num)

/-- Claim C7: for every supported year, a negative gross input produces a result
identical in every field (the echoed `grossAnnual` and `notes` included) to the
result at gross 0. -/
theorem claim_C7 (y : TaxYearKey) (gross : ℚ) (hg : gross < 0) :
    payrollFromAnnualSalary y gross = payrollFromAnnualSalary y 0 := by
  have h1 : max 0 gross = 0 := max_eq_left hg.le
  have h2 : max 0 (0 : ℚ) = 0 := max_self 0
  simp only [payrollFromAnnualSalary, h1, h2]

/-- Witness for C7 at year 2024/25 and gross -500. -/
theorem claim_C7_witness :
    payrollFromAnnualSalary TaxYearKey.y2024_25 (-500) =
      payrollFromAnnualSalary TaxYearKey.y2024_25 0 :=
  claim_C7 TaxYearKey.y2024_25 (-500) (by norm_num)

/-- Claim C8: the parameter table has exactly six entries, and every entry
satisfies `taperStart < taperEnd`, `basicBandTaxable ≤ higherThresholdTaxable`, and
`niPrimaryThreshold ≤ niUpperEarningsLimit`. -/
theorem claim_C8 :
    Fintype.card TaxYearKey = 6 ∧
    ∀ y : TaxYearKey,
      (YEARS y).taperStart < (YEARS y).taperEnd ∧
      (YEARS y).basicBandTaxable ≤ (YEARS y).higherThresholdTaxable ∧
      (YEARS y).niPrimaryThreshold ≤ (YEARS y).niUpperEarningsLimit := by
  refine ⟨rfl, fun y => ?_⟩
  cases y <;> refine ⟨?_, ?_, ?_⟩ <;> norm_num [YEARS]

/-- On non-negative inputs the single-year allowance function of `ukTax2425.ts`
agrees with the multi-year one at the 2024/25 parameters. -/
theorem personalAllowance2425_eq (g : ℚ) (hg : 0 ≤ g) :
    UkTax2425.personalAllowance2425 g = calcPersonalAllowance (YEARS TaxYearKey.y2024_25) g := by
  have hmax : max 0 g = g := max_eq_right hg
  simp only [UkTax2425.personalAllowance2425, calcPersonalAllowance, hmax,
    UkTax2425.clamp, clamp, UkTax2425.PA_FULL, UkTax2425.PA_TAPER_START,
    UkTax2425.PA_ZERO_AT, YEARS]

/-- The single-year income-tax function of `ukTax2425.ts` agrees with the
multi-year one at the 2024/25 parameters. -/
theorem calcIncomeTax2425_eq (t : ℚ) :
    UkTax2425.calcIncomeTax2425 t = calcIncomeTax (YEARS TaxYearKey.y2024_25) t := by
  simp only [UkTax2425.calcIncomeTax2425, calcIncomeTax,
    UkTax2425.BASIC_BAND, UkTax2425.PA_ZERO_AT, YEARS]

/-- The single-year NI function of `ukTax2425.ts` agrees with the multi-year one
at the 2024/25 parameters. -/
theorem calcEmployeeNI2425_eq (g : ℚ) :
    UkTax2425.calcEmployeeNI2425 g = calcEmployeeNI (YEARS TaxYearKey.y2024_25) g := by
  simp only [UkTax2425.calcEmployeeNI2425, calcEmployeeNI,
    UkTax2425.NI_PT, UkTax2425.NI_UEL, UkTax2425.NI_MAIN, UkTax2425.NI_ADDITIONAL, YEARS]

/-- Claim C9: for every gross input, `payrollFromAnnualSalary2425` and
`payrollFromAnnualSalary` at year 2024/25 agree on every shared numeric field. -/
theorem claim_C9 (gross : ℚ) :
    (UkTax2425.payrollFromAnnualSalary2425 gross).grossAnnual =
      (payrollFromAnnualSalary TaxYearKey.y2024_25 gross).grossAnnual ∧
    (UkTax2425.payrollFromAnnualSalary2425 gross).personalAllowance =
      (payrollFromAnnualSalary TaxYearKey.y2024_25 gross).personalAllowance ∧
    (UkTax2425.payrollFromAnnualSalary2425 gross).taxableAnnual =
      (payrollFromAnnualSalary TaxYearKey.y2024_25 gross).taxableAnnual ∧
    (UkTax2425.payrollFromAnnualSalary2425 gross).incomeTaxAnnual =
      (payrollFromAnnualSalary TaxYearKey.y2024_25 gross).incomeTaxAnnual ∧
    (UkTax2425.payrollFromAnnualSalary2425 gross).niAnnual =
      (payrollFromAnnualSalary TaxYearKey.y2024_25 gross).niAnnual ∧
    (UkTax2425.payrollFromAnnualSalary2425 gross).netAnnual =
      (payrollFromAnnualSalary TaxYearKey.y2024_25 gross).netAnnual ∧
    (UkTax2425.payrollFromAnnualSalary2425 gross).netMonthly =
      (payrollFromAnnualSalary TaxYearKey.y2024_25 gross).netMonthly ∧
    (UkTax2425.payrollFromAnnualSalary2425 gross).takeHomePct =
      (payrollFromAnnualSalary TaxYearKey.y2024_25 gross).takeHomePct := by
  have hpa := personalAllowance2425_eq (max 0 gross) (le_max_left 0 gross)
  have htax := calcIncomeTax2425_eq
  have hni := calcEmployeeNI2425_eq
  refine ⟨?_, ?_, ?_, ?_, ?_, ?_, ?_, ?_⟩ <;>
    simp only [UkTax2425.payrollFromAnnualSalary2425, payrollFromAnnualSalary,
      hpa, htax, hni]

/-- `calcIncomeTax` is non-negative whenever the basic band width is
non-negative. -/
theorem calcIncomeTax_nonneg (p : YearParams) (hB : 0 ≤ p.basicBandTaxable) (t : ℚ) :
    0 ≤ calcIncomeTax p t := by
  simp only [calcIncomeTax]
  have h1 : (0 : ℚ) ≤ min (max 0 t) p.basicBandTaxable := le_min (le_max_left 0 t) hB
  have h2 : (0 : ℚ) ≤ min (max 0 (max 0 t - p.basicBandTaxable))
      (max 0 (p.higherThresholdTaxable - p.basicBandTaxable)) :=
    le_min (le_max_left _ _) (le_max_left _ _)
  have h3 : (0 : ℚ) ≤ max 0 (max 0 t - p.higherThresholdTaxable) := le_max_left _ _
  linarith

/-- `calcEmployeeNI` is non-negative whenever both NI rates are non-negative. -/
theorem calcEmployeeNI_nonneg (p : YearParams) (hm : 0 ≤ p.niMainRate)
    (ha : 0 ≤ p.niAdditionalRate) (g : ℚ) : 0 ≤ calcEmployeeNI p g := by
  simp only [calcEmployeeNI]
  exact add_nonneg (mul_nonneg (le_max_left _ _) hm) (mul_nonneg (le_max_left _ _) ha)

/-- Claim C10: for every supported year and every gross input (negative included),
the returned `grossAnnual` equals `max(0, input)`, `netAnnual ≤ grossAnnual`, and
`takeHomePct` lies in `[0, 100]`. -/
theorem claim_C10 (y : TaxYearKey) (gross : ℚ) :
    (payrollFromAnnualSalary y gross).grossAnnual = max 0 gross ∧
    (payrollFromAnnualSalary y gross).netAnnual ≤ (payrollFromAnnualSalary y gross).grossAnnual ∧
    0 ≤ (payrollFromAnnualSalary y gross).takeHomePct ∧
    (payrollFromAnnualSalary y gross).takeHomePct ≤ 100 := by
  have hB : 0 ≤ (YEARS y).basicBandTaxable := by cases y <;> norm_num [YEARS]
  have hm : 0 ≤ (YEARS y).niMainRate := by cases y <;> norm_num [YEARS]
  have ha : 0 ≤ (YEARS y).niAdditionalRate := by cases y <;> norm_num [YEARS]
  have hG : (0 : ℚ) ≤ max 0 gross := le_max_left 0 gross
  have htax : 0 ≤ calcIncomeTax (YEARS y)
      (max 0 (max 0 gross - calcPersonalAllowance (YEARS y) (max 0 gross))) :=
    calcIncomeTax_nonneg (YEARS y) hB _
  have hni : 0 ≤ calcEmployeeNI (YEARS y) (max 0 gross) :=
    calcEmployeeNI_nonneg (YEARS y) hm ha _
  have hnet : max 0 (max 0 gross -
      calcIncomeTax (YEARS y)
        (max 0 (max 0 gross - calcPersonalAllowance (YEARS y) (max 0 gross))) -
      calcEmployeeNI (YEARS y) (max 0 gross)) ≤ max 0 gross :=
    max_le hG (by linarith)
  simp only [payrollFromAnnualSalary]
  refine ⟨trivial, hnet, ?_, ?_⟩
  · split_ifs with h
    · exact mul_nonneg (div_nonneg (le_max_left _ _) h.le) (by norm_num)
    · exact le_rfl
  · split_ifs with h
    · rw [div_mul_eq_mul_div, div_le_iff₀ h]
      linarith
    · norm_num
